import Mathlib

/-!
Verification of the SoCo Sonos control client (soco.py): a shallow embedding
of the single class `SoCo` and the pieces of `xml.etree.cElementTree` it uses.

The network is modelled as a stub function `Request → String` giving the raw
response body for the request; each Python method becomes a Lean function of
the client state, its arguments and that stub.  Python exceptions
(`AttributeError` from the missing `self.parse` attribute, `ParseError` from
`XML.fromstring`, `ValueError` from `int()`) are modelled with `Except`.
-/

/-- Python values the mutating operations can return: `True`, an integer
UPnP error code, or the raw response string. -/
inductive PyVal where
  | pyBool (b : Bool)
  | pyInt (n : Int)
  | pyStr (s : String)
deriving DecidableEq, Repr

/-- Python exceptions the code can raise.  `attributeError name` models the
lookup of a missing attribute `name` on the `SoCo` instance or on `None`;
`parseError` models `xml.etree.cElementTree.ParseError`; `valueError`
models `int()` failing on a non-numeric string. -/
inductive PyExn where
  | attributeError (name : String)
  | parseError
  | valueError
deriving DecidableEq, Repr

/-- The client state: `SoCo.__init__` stores exactly one field,
`self.speaker_ip`. -/
structure SoCo where
  speaker_ip : String
deriving DecidableEq, Repr

/-- An HTTP POST request as issued by `SoCo.__send_command` via
`requests.post`: the URL, the two headers, and the `data` payload. -/
structure Request where
  url : String
  contentType : String
  soapaction : String
  data : String
deriving DecidableEq, Repr

def TRANSPORT_ENDPOINT : String := "/MediaRenderer/AVTransport/Control"

def RENDERING_ENDPOINT : String := "/MediaRenderer/RenderingControl/Control"

def DEVICE_ENDPOINT : String := "/DeviceProperties/Control"

/-- The fixed SOAP envelope wrapper of `__send_command`, part before the body. -/
def soapPre : String := "<s:Envelope xmlns:s=\"http://schemas.xmlsoap.org/soap/envelope/\" s:encodingStyle=\"http://schemas.xmlsoap.org/soap/encoding/\"><s:Body>"

/-- The fixed SOAP envelope wrapper of `__send_command`, part after the body. -/
def soapPost : String := "</s:Body></s:Envelope>"

/-- `SoCo.__send_command`, request-construction part: builds the POST request
(`requests.post('http://' + self.speaker_ip + ':1400' + endpoint, data=soap,
headers=headers)`).  The response body is supplied by the network stub. -/
def sendCommandRequest (speaker_ip endpoint action body : String) : Request :=
  { url := "http://" ++ speaker_ip ++ ":1400" ++ endpoint
  , contentType := "text/xml"
  , soapaction := action
  , data := soapPre ++ body ++ soapPost }

def play_action : String := "\"urn:schemas-upnp-org:service:AVTransport:1#Play\""

def play_body : String := "<u:Play xmlns:u=\"urn:schemas-upnp-org:service:AVTransport:1\"><InstanceID>0</InstanceID><Speed>1</Speed></u:Play>"

def play_success : String := "<s:Envelope xmlns:s=\"http://schemas.xmlsoap.org/soap/envelope/\" s:encodingStyle=\"http://schemas.xmlsoap.org/soap/encoding/\"><s:Body><u:PlayResponse xmlns:u=\"urn:schemas-upnp-org:service:AVTransport:1\"></u:PlayResponse></s:Body></s:Envelope>"

def pause_action : String := "\"urn:schemas-upnp-org:service:AVTransport:1#Pause\""

def pause_body : String := "<u:Pause xmlns:u=\"urn:schemas-upnp-org:service:AVTransport:1\"><InstanceID>0</InstanceID><Speed>1</Speed></u:Pause>"

def pause_success : String := "<s:Envelope xmlns:s=\"http://schemas.xmlsoap.org/soap/envelope/\" s:encodingStyle=\"http://schemas.xmlsoap.org/soap/encoding/\"><s:Body><u:PauseResponse xmlns:u=\"urn:schemas-upnp-org:service:AVTransport:1\"></u:PauseResponse></s:Body></s:Envelope>"

def stop_action : String := "\"urn:schemas-upnp-org:service:AVTransport:1#Stop\""

def stop_body : String := "<u:Stop xmlns:u=\"urn:schemas-upnp-org:service:AVTransport:1\"><InstanceID>0</InstanceID><Speed>1</Speed></u:Stop>"

def stop_success : String := "<s:Envelope xmlns:s=\"http://schemas.xmlsoap.org/soap/envelope/\" s:encodingStyle=\"http://schemas.xmlsoap.org/soap/encoding/\"><s:Body><u:StopResponse xmlns:u=\"urn:schemas-upnp-org:service:AVTransport:1\"></u:StopResponse></s:Body></s:Envelope>"

def next_action : String := "\"urn:schemas-upnp-org:service:AVTransport:1#Next\""

def next_body : String := "<u:Next xmlns:u=\"urn:schemas-upnp-org:service:AVTransport:1\"><InstanceID>0</InstanceID><Speed>1</Speed></u:Next>"

def next_success : String := "<s:Envelope xmlns:s=\"http://schemas.xmlsoap.org/soap/envelope/\" s:encodingStyle=\"http://schemas.xmlsoap.org/soap/encoding/\"><s:Body><u:NextResponse xmlns:u=\"urn:schemas-upnp-org:service:AVTransport:1\"></u:NextResponse></s:Body></s:Envelope>"

def previous_action : String := "\"urn:schemas-upnp-org:service:AVTransport:1#Previous\""

def previous_body : String := "<u:Previous xmlns:u=\"urn:schemas-upnp-org:service:AVTransport:1\"><InstanceID>0</InstanceID><Speed>1</Speed></u:Previous>"

def previous_success : String := "<s:Envelope xmlns:s=\"http://schemas.xmlsoap.org/soap/envelope/\" s:encodingStyle=\"http://schemas.xmlsoap.org/soap/encoding/\"><s:Body><u:PreviousResponse xmlns:u=\"urn:schemas-upnp-org:service:AVTransport:1\"></u:PreviousResponse></s:Body></s:Envelope>"

def mute_action : String := "\"urn:schemas-upnp-org:service:RenderingControl:1#SetMute\""

/-- Body of `SoCo.mute`: `mute_value` is `'1'` when the argument `is True`,
else `'0'`. -/
def mute_body (m : Bool) : String :=
  "<u:SetMute xmlns:u=\"urn:schemas-upnp-org:service:RenderingControl:1\"><InstanceID>0</InstanceID><Channel>Master</Channel><DesiredMute>" ++ (if m then "1" else "0") ++ "</DesiredMute></u:SetMute>"

def mute_success : String := "<s:Envelope xmlns:s=\"http://schemas.xmlsoap.org/soap/envelope/\" s:encodingStyle=\"http://schemas.xmlsoap.org/soap/encoding/\"><s:Body><u:SetMuteResponse xmlns:u=\"urn:schemas-upnp-org:service:RenderingControl:1\"></u:SetMuteResponse></s:Body></s:Envelope>"

def set_volume_action : String := "\"urn:schemas-upnp-org:service:RenderingControl:1#SetVolume\""

/-- Python `repr` of an `int`: its decimal string. -/
def pyRepr (v : Int) : String := toString v

/-- Body of `SoCo.set_volume`: the template concatenated with `repr(volume)`. -/
def set_volume_body (volume : Int) : String :=
  "<u:SetVolume xmlns:u=\"urn:schemas-upnp-org:service:RenderingControl:1\"><InstanceID>0</InstanceID><Channel>Master</Channel><DesiredVolume>" ++ pyRepr volume ++ "</DesiredVolume></u:SetVolume>"

def set_volume_success : String := "<s:Envelope xmlns:s=\"http://schemas.xmlsoap.org/soap/envelope/\" s:encodingStyle=\"http://schemas.xmlsoap.org/soap/encoding/\"><s:Body><u:SetVolumeResponse xmlns:u=\"urn:schemas-upnp-org:service:RenderingControl:1\"></u:SetVolumeResponse></s:Body></s:Envelope>"

def status_light_action : String := "\"urn:schemas-upnp-org:service:DeviceProperties:1#SetLEDState\""

/-- Body of `SoCo.status_light`: `led_state` is `'On'` when the argument
`is True`, else `'Off'`.  Note the source never appends a closing
`</u:SetLEDState>` tag. -/
def status_light_body (led_on : Bool) : String :=
  "<u:SetLEDState xmlns:u=\"urn:schemas-upnp-org:service:DeviceProperties:1\"><DesiredLEDState>" ++ (if led_on then "On" else "Off") ++ "</DesiredLEDState>"

def status_light_success : String := "<s:Envelope xmlns:s=\"http://schemas.xmlsoap.org/soap/envelope/\" s:encodingStyle=\"http://schemas.xmlsoap.org/soap/encoding/\"><s:Body><u:SetLEDStateResponse xmlns:u=\"urn:schemas-upnp-org:service:DeviceProperties:1\"></u:SetLEDStateResponse></s:Body></s:Envelope>"

def get_current_track_info_action : String := "\"urn:schemas-upnp-org:service:AVTransport:1#GetPositionInfo\""

def get_current_track_info_body : String := "<u:GetPositionInfo xmlns:u=\"urn:schemas-upnp-org:service:AVTransport:1\"><InstanceID>0</InstanceID><Channel>Master</Channel></u:GetPositionInfo>"

/-- An ElementTree element after parsing: the tag in Clark notation
(`\x7buri\x7dlocal` when namespaced), the text before the first child
(`none` models Python `None`), and the child elements in order. -/
inductive XElem where
  | mk (tag : String) (text : Option String) (children : List XElem)
deriving Repr

def XElem.tag : XElem → String
  | XElem.mk t _ _ => t

def XElem.text : XElem → Option String
  | XElem.mk _ x _ => x

def XElem.children : XElem → List XElem
  | XElem.mk _ _ c => c

/-- XML entity unescaping of character data, for the entities the client's
documents can contain. -/
def xmlUnesc : List Char → List Char
  | [] => []
  | '&' :: 'l' :: 't' :: ';' :: rest => '<' :: xmlUnesc rest
  | '&' :: 'g' :: 't' :: ';' :: rest => '>' :: xmlUnesc rest
  | '&' :: 'q' :: 'u' :: 'o' :: 't' :: ';' :: rest => '"' :: xmlUnesc rest
  | '&' :: 'a' :: 'm' :: 'p' :: ';' :: rest => '&' :: xmlUnesc rest
  | c :: rest => c :: xmlUnesc rest

def isXmlWs (c : Char) : Bool :=
  c == ' ' || c == '\n' || c == '\r' || c == '\t'

def skipWs : List Char → List Char
  | [] => []
  | c :: cs => if isXmlWs c then skipWs cs else c :: cs

def isNameChar (c : Char) : Bool :=
  c.isAlphanum || c == ':' || c == '.' || c == '-' || c == '_'

def takeName (cs : List Char) : String × List Char :=
  (String.mk (cs.takeWhile isNameChar), cs.dropWhile isNameChar)

/-- Parse the attribute list of a start tag: `name="value"` pairs up to the
closing `>` or `/>`; returns the pairs and the rest beginning at `>` or `/`. -/
def parseAttrs : Nat → List Char → Except PyExn (List (String × String) × List Char)
  | 0, _ => Except.error PyExn.parseError
  | fuel + 1, cs0 =>
    let cs := skipWs cs0
    match cs with
    | [] => Except.error PyExn.parseError
    | c :: _ =>
      if c == '>' || c == '/' then Except.ok ([], cs)
      else
        let (name, cs1) := takeName cs
        if name = "" then Except.error PyExn.parseError
        else
          match skipWs cs1 with
          | '=' :: cs2 =>
            match skipWs cs2 with
            | '"' :: cs3 =>
              let v := cs3.takeWhile (fun c => c != '"')
              match cs3.dropWhile (fun c => c != '"') with
              | '"' :: cs4 =>
                match parseAttrs fuel cs4 with
                | Except.ok (attrs, rest) =>
                  Except.ok ((name, String.mk (xmlUnesc v)) :: attrs, rest)
                | Except.error e => Except.error e
              | _ => Except.error PyExn.parseError
            | _ => Except.error PyExn.parseError
          | _ => Except.error PyExn.parseError

/-- Split a qualified name at its single colon, when it has one. -/
def splitQName (cs : List Char) : Option (String × String) :=
  let pfx := cs.takeWhile (fun c => c != ':')
  match cs.dropWhile (fun c => c != ':') with
  | ':' :: rest =>
    if rest.any (fun c => c == ':') then none else some (String.mk pfx, String.mk rest)
  | _ => none

/-- Resolve a raw qualified tag name against the in-scope namespace
declarations, producing ElementTree's Clark notation.  Every qualified name
the client's documents use is bound, so the fallthrough cases (an unbound
name left as written) are never reached on its inputs. -/
def resolveTag (env : List (String × String)) (raw : String) : String :=
  match splitQName raw.data with
  | some (pfx, localName) =>
    match env.lookup pfx with
    | some uri => "\x7b" ++ uri ++ "\x7d" ++ localName
    | none => raw
  | none =>
    match env.lookup "" with
    | some uri => "\x7b" ++ uri ++ "\x7d" ++ raw
    | none => raw

/-- The namespace declarations among a tag's attributes: `xmlns="u"` binds
the default namespace, `xmlns:p="u"` binds the p. -/
def nsUpdates (attrs : List (String × String)) : List (String × String) :=
  attrs.filterMap (fun a =>
    if a.1 = "xmlns" then some ("", a.2)
    else
      match a.1.data with
      | 'x' :: 'm' :: 'l' :: 'n' :: 's' :: ':' :: rest => some (String.mk rest, a.2)
      | _ => none)

mutual

/-- Parse one element, the input starting at the `<` of its start tag. -/
def parseElem : Nat → List (String × String) → List Char → Except PyExn (XElem × List Char)
  | 0, _, _ => Except.error PyExn.parseError
  | fuel + 1, env, cs =>
    match cs with
    | '<' :: cs1 =>
      let (rawName, cs2) := takeName cs1
      if rawName = "" then Except.error PyExn.parseError
      else
        match parseAttrs (cs2.length + 1) cs2 with
        | Except.error e => Except.error e
        | Except.ok (attrs, cs3) =>
          let env2 := nsUpdates attrs ++ env
          let tag := resolveTag env2 rawName
          match cs3 with
          | '/' :: '>' :: cs4 => Except.ok (XElem.mk tag none [], cs4)
          | '>' :: cs4 =>
            match parseContent fuel env2 cs4 with
            | Except.error e => Except.error e
            | Except.ok (txt, kids, cs5) =>
              match cs5 with
              | '<' :: '/' :: cs6 =>
                let (endName, cs7) := takeName cs6
                if endName = rawName then
                  match skipWs cs7 with
                  | '>' :: cs8 => Except.ok (XElem.mk tag txt kids, cs8)
                  | _ => Except.error PyExn.parseError
                else Except.error PyExn.parseError
              | _ => Except.error PyExn.parseError
          | _ => Except.error PyExn.parseError
    | _ => Except.error PyExn.parseError
termination_by structural fuel _ _ => fuel

/-- Parse element content: leading character data becomes the element's
`text` (`none` when no characters precede the first `<`), then the children. -/
def parseContent : Nat → List (String × String) → List Char → Except PyExn (Option String × List XElem × List Char)
  | 0, _, _ => Except.error PyExn.parseError
  | fuel + 1, env, cs =>
    let t := cs.takeWhile (fun c => c != '<')
    let rest := cs.dropWhile (fun c => c != '<')
    let txt : Option String := if t.isEmpty then none else some (String.mk (xmlUnesc t))
    match parseKids fuel env rest with
    | Except.ok (kids, cs2) => Except.ok (txt, kids, cs2)
    | Except.error e => Except.error e
termination_by structural fuel _ _ => fuel

/-- Parse a sequence of child elements up to the enclosing end tag;
character data between children (ElementTree's `tail`, which `findtext`
never consults here) is read and discarded. -/
def parseKids : Nat → List (String × String) → List Char → Except PyExn (List XElem × List Char)
  | 0, _, _ => Except.error PyExn.parseError
  | fuel + 1, env, cs =>
    let rest := cs.dropWhile (fun c => c != '<')
    match rest with
    | '<' :: '/' :: _ => Except.ok ([], rest)
    | '<' :: _ =>
      match parseElem fuel env rest with
      | Except.error e => Except.error e
      | Except.ok (child, cs2) =>
        match parseKids fuel env cs2 with
        | Except.error e => Except.error e
        | Except.ok (kids, cs3) => Except.ok (child :: kids, cs3)
    | _ => Except.error PyExn.parseError
termination_by structural fuel _ _ => fuel

end

/-- `xml.etree.cElementTree.fromstring`, modelled for the XML subset the
client exchanges: elements with attributes, prefixed and default `xmlns`
declarations, character data with the standard entities.  Anything else —
in particular input that does not start with a tag, or mismatched tags —
is a `ParseError`, as in ElementTree. -/
def fromstring (s : String) : Except PyExn XElem :=
  match parseElem (4 * s.data.length + 16) [] (skipWs s.data) with
  | Except.error e => Except.error e
  | Except.ok (root, rest) =>
    if (skipWs rest).isEmpty then Except.ok root else Except.error PyExn.parseError

mutual

/-- Depth-first document-order search: does this element or one of its
descendants carry the given (resolved) tag? -/
def findInElem (tag : String) : XElem → Option XElem
  | XElem.mk t x c =>
    if t = tag then some (XElem.mk t x c) else descFind tag c
termination_by structural e => e

/-- Depth-first document-order search for the first element with the given
(resolved) tag among a list of elements and their descendants. -/
def descFind (tag : String) : List XElem → Option XElem
  | [] => none
  | e :: es =>
    match findInElem tag e with
    | some r => some r
    | none => descFind tag es
termination_by structural l => l

end

/-- `Element.findtext` for the path forms the client uses (`.//tag` and
`.//\x7buri\x7dtag`): the first matching strict descendant in document
order; Python `None` when no element matches, and the element's text — with
a `None` text read back as the empty string — when one does. -/
def findtext (root : XElem) (path : String) : Option String :=
  (descFind (String.mk (path.data.drop 3)) (XElem.children root)).map
    (fun e => (XElem.text e).getD "")

/-- Decimal value of a digit sequence; `none` on a non-digit. -/
def digitsVal : List Char → Nat → Option Nat
  | [], acc => some acc
  | c :: cs, acc =>
    if c.isDigit then digitsVal cs (acc * 10 + (c.toNat - 48)) else none

/-- Strip leading and trailing XML/ASCII whitespace. -/
def trimWs (cs : List Char) : List Char :=
  (skipWs (skipWs cs).reverse).reverse

/-- Python `int(s)` on a string: an optional sign and decimal digits after
surrounding whitespace is stripped; anything else is a `ValueError`. -/
def pyInt (s : String) : Except PyExn Int :=
  match trimWs s.data with
  | '-' :: ds =>
    if ds.isEmpty then Except.error PyExn.valueError
    else
      match digitsVal ds 0 with
      | some n => Except.ok (-(n : Int))
      | none => Except.error PyExn.valueError
  | '+' :: ds =>
    if ds.isEmpty then Except.error PyExn.valueError
    else
      match digitsVal ds 0 with
      | some n => Except.ok (n : Int)
      | none => Except.error PyExn.valueError
  | ds =>
    if ds.isEmpty then Except.error PyExn.valueError
    else
      match digitsVal ds 0 with
      | some n => Except.ok (n : Int)
      | none => Except.error PyExn.valueError

/-- `SoCo.__parse_error`: parse the response as XML (a `ParseError` from
`fromstring` propagates out), look up the namespaced `errorCode` element,
and return it as an integer when present, the whole raw response otherwise. -/
def parse_error (response : String) : Except PyExn PyVal :=
  match fromstring response with
  | Except.error e => Except.error e
  | Except.ok err =>
    match findtext err ".//\x7burn:schemas-upnp-org:control-1-0\x7derrorCode" with
    | some errorCode =>
      match pyInt errorCode with
      | Except.ok n => Except.ok (PyVal.pyInt n)
      | Except.error e => Except.error e
    | none => Except.ok (PyVal.pyStr response)

def playRequest (self : SoCo) : Request :=
  sendCommandRequest self.speaker_ip TRANSPORT_ENDPOINT play_action play_body

/-- `SoCo.play`: send the Play command; `True` when the response equals the
literal success envelope, otherwise the result of `__parse_error`.  The
client is returned alongside the result to make the absence of state
updates explicit (the method never assigns to `self`). -/
def play (self : SoCo) (net : Request → String) : SoCo × Except PyExn PyVal :=
  let response := net (playRequest self)
  if response = play_success then (self, Except.ok (PyVal.pyBool true))
  else (self, parse_error response)

def pauseRequest (self : SoCo) : Request :=
  sendCommandRequest self.speaker_ip TRANSPORT_ENDPOINT pause_action pause_body

/-- `SoCo.pause`: as `play`, with the Pause action, body and envelope. -/
def pause (self : SoCo) (net : Request → String) : SoCo × Except PyExn PyVal :=
  let response := net (pauseRequest self)
  if response = pause_success then (self, Except.ok (PyVal.pyBool true))
  else (self, parse_error response)

def stopRequest (self : SoCo) : Request :=
  sendCommandRequest self.speaker_ip TRANSPORT_ENDPOINT stop_action stop_body

/-- `SoCo.stop`: as `play`, with the Stop action, body and envelope. -/
def stop (self : SoCo) (net : Request → String) : SoCo × Except PyExn PyVal :=
  let response := net (stopRequest self)
  if response = stop_success then (self, Except.ok (PyVal.pyBool true))
  else (self, parse_error response)

def nextRequest (self : SoCo) : Request :=
  sendCommandRequest self.speaker_ip TRANSPORT_ENDPOINT next_action next_body

/-- `SoCo.next`: as `play`, with the Next action, body and envelope. -/
def next (self : SoCo) (net : Request → String) : SoCo × Except PyExn PyVal :=
  let response := net (nextRequest self)
  if response = next_success then (self, Except.ok (PyVal.pyBool true))
  else (self, parse_error response)

def previousRequest (self : SoCo) : Request :=
  sendCommandRequest self.speaker_ip TRANSPORT_ENDPOINT previous_action previous_body

/-- `SoCo.previous`: as `play`, with the Previous action, body and envelope. -/
def previous (self : SoCo) (net : Request → String) : SoCo × Except PyExn PyVal :=
  let response := net (previousRequest self)
  if response = previous_success then (self, Except.ok (PyVal.pyBool true))
  else (self, parse_error response)

def muteRequest (self : SoCo) (m : Bool) : Request :=
  sendCommandRequest self.speaker_ip RENDERING_ENDPOINT mute_action (mute_body m)

/-- `SoCo.mute`: on the success envelope, `True`.  On any other response the
source runs `return self.parse(response)`, but the class defines no
attribute `parse` (the private method is `__parse_error`, name-mangled to
`_SoCo__parse_error`), so the attribute lookup raises `AttributeError`
before any parsing happens. -/
def mute (self : SoCo) (m : Bool) (net : Request → String) : SoCo × Except PyExn PyVal :=
  let response := net (muteRequest self m)
  if response = mute_success then (self, Except.ok (PyVal.pyBool true))
  else (self, Except.error (PyExn.attributeError "parse"))

def set_volumeRequest (self : SoCo) (volume : Int) : Request :=
  sendCommandRequest self.speaker_ip RENDERING_ENDPOINT set_volume_action (set_volume_body volume)

/-- `SoCo.set_volume`: as `play`, with the SetVolume action, the body built
from `repr(volume)`, and the SetVolume success envelope. -/
def set_volume (self : SoCo) (volume : Int) (net : Request → String) : SoCo × Except PyExn PyVal :=
  let response := net (set_volumeRequest self volume)
  if response = set_volume_success then (self, Except.ok (PyVal.pyBool true))
  else (self, parse_error response)

def status_lightRequest (self : SoCo) (led_on : Bool) : Request :=
  sendCommandRequest self.speaker_ip DEVICE_ENDPOINT status_light_action (status_light_body led_on)

/-- `SoCo.status_light`: on the success envelope, `True`.  On any other
response the source runs `return self.parse(response)`, which raises
`AttributeError` exactly as in `mute`. -/
def status_light (self : SoCo) (led_on : Bool) (net : Request → String) : SoCo × Except PyExn PyVal :=
  let response := net (status_lightRequest self led_on)
  if response = status_light_success then (self, Except.ok (PyVal.pyBool true))
  else (self, Except.error (PyExn.attributeError "parse"))

/-- The dictionary built by `get_current_track_info`.  Fields hold
`Option String` because `findtext` returns Python `None` when the element
is absent, and the code stores that result unchanged. -/
structure TrackInfo where
  playlist_position : Option String
  duration : Option String
  title : Option String
  artist : Option String
  album : Option String
deriving DecidableEq, Repr

def get_current_track_infoRequest (self : SoCo) : Request :=
  sendCommandRequest self.speaker_ip TRANSPORT_ENDPOINT get_current_track_info_action get_current_track_info_body

/-- `SoCo.get_current_track_info`: parse the response, read `Track`,
`TrackDuration` and `TrackMetaData`, and when the metadata text is not the
empty string parse it as a DIDL-Lite document and look up the namespaced
title, creator and album elements.  The source's test is `d is not ''`;
CPython interns the empty string, so the identity test coincides with
equality against `''`, and a `None` (absent `TrackMetaData` element) takes
the first branch where `d.encode('utf-8')` raises `AttributeError`. -/
def get_current_track_info (self : SoCo) (net : Request → String) : SoCo × Except PyExn TrackInfo :=
  let response := net (get_current_track_infoRequest self)
  match fromstring response with
  | Except.error e => (self, Except.error e)
  | Except.ok dom =>
    let playlist_position := findtext dom ".//Track"
    let duration := findtext dom ".//TrackDuration"
    let d := findtext dom ".//TrackMetaData"
    if d ≠ some "" then
      match d with
      | none => (self, Except.error (PyExn.attributeError "encode"))
      | some dstr =>
        match fromstring dstr with
        | Except.error e => (self, Except.error e)
        | Except.ok metadata =>
          (self, Except.ok
            { playlist_position := playlist_position
            , duration := duration
            , title := findtext metadata ".//\x7bhttp://purl.org/dc/elements/1.1/\x7dtitle"
            , artist := findtext metadata ".//\x7bhttp://purl.org/dc/elements/1.1/\x7dcreator"
            , album := findtext metadata ".//\x7burn:schemas-upnp-org:metadata-1-0/upnp/\x7dalbum" })
    else
      (self, Except.ok
        { playlist_position := playlist_position
        , duration := duration
        , title := some ""
        , artist := some ""
        , album := some "" })

/-- The eight mutating operations together with their arguments, for the
claims quantifying over "every mutating operation". -/
inductive MutOp where
  | play
  | pause
  | stop
  | next
  | previous
  | mute (m : Bool)
  | set_volume (volume : Int)
  | status_light (led_on : Bool)
deriving DecidableEq, Repr

/-- The request a mutating operation issues. -/
def requestOf : MutOp → SoCo → Request
  | MutOp.play, self => playRequest self
  | MutOp.pause, self => pauseRequest self
  | MutOp.stop, self => stopRequest self
  | MutOp.next, self => nextRequest self
  | MutOp.previous, self => previousRequest self
  | MutOp.mute m, self => muteRequest self m
  | MutOp.set_volume v, self => set_volumeRequest self v
  | MutOp.status_light b, self => status_lightRequest self b

/-- The literal success envelope a mutating operation compares against. -/
def successOf : MutOp → String
  | MutOp.play => play_success
  | MutOp.pause => pause_success
  | MutOp.stop => stop_success
  | MutOp.next => next_success
  | MutOp.previous => previous_success
  | MutOp.mute _ => mute_success
  | MutOp.set_volume _ => set_volume_success
  | MutOp.status_light _ => status_light_success

/-- Run a mutating operation against the network stub. -/
def runOp : MutOp → SoCo → (Request → String) → SoCo × Except PyExn PyVal
  | MutOp.play, self, net => play self net
  | MutOp.pause, self, net => pause self net
  | MutOp.stop, self, net => stop self net
  | MutOp.next, self, net => next self net
  | MutOp.previous, self, net => previous self net
  | MutOp.mute m, self, net => mute self m net
  | MutOp.set_volume v, self, net => set_volume self v net
  | MutOp.status_light b, self, net => status_light self b net

/-- The SOAP action string of a mutating operation. -/
def actionOf : MutOp → String
  | MutOp.play => play_action
  | MutOp.pause => pause_action
  | MutOp.stop => stop_action
  | MutOp.next => next_action
  | MutOp.previous => previous_action
  | MutOp.mute _ => mute_action
  | MutOp.set_volume _ => set_volume_action
  | MutOp.status_light _ => status_light_action

/-- The body string of a mutating operation. -/
def bodyOf : MutOp → String
  | MutOp.play => play_body
  | MutOp.pause => pause_body
  | MutOp.stop => stop_body
  | MutOp.next => next_body
  | MutOp.previous => previous_body
  | MutOp.mute m => mute_body m
  | MutOp.set_volume v => set_volume_body v
  | MutOp.status_light b => status_light_body b

/-- The endpoint path of a mutating operation. -/
def endpointOf : MutOp → String
  | MutOp.play => TRANSPORT_ENDPOINT
  | MutOp.pause => TRANSPORT_ENDPOINT
  | MutOp.stop => TRANSPORT_ENDPOINT
  | MutOp.next => TRANSPORT_ENDPOINT
  | MutOp.previous => TRANSPORT_ENDPOINT
  | MutOp.mute _ => RENDERING_ENDPOINT
  | MutOp.set_volume _ => RENDERING_ENDPOINT
  | MutOp.status_light _ => DEVICE_ENDPOINT

/-- `sub` occurs contiguously in `s`: substring as infix of the character
sequences. -/
def strContains (s sub : String) : Prop := sub.data <:+: s.data

deriving instance DecidableEq for Except

instance (s sub : String) : Decidable (strContains s sub) :=
  inferInstanceAs (Decidable (sub.data <:+: s.data))

/-- A UPnP fault response carrying `errorCode` 801 in the
`urn:schemas-upnp-org:control-1-0` namespace. -/
def fault801 : String := "<s:Envelope xmlns:s=\"http://schemas.xmlsoap.org/soap/envelope/\" s:encodingStyle=\"http://schemas.xmlsoap.org/soap/encoding/\"><s:Body><s:Fault><faultcode>s:Client</faultcode><faultstring>UPnPError</faultstring><detail><UPnPError xmlns=\"urn:schemas-upnp-org:control-1-0\"><errorCode>801</errorCode></UPnPError></detail></s:Fault></s:Body></s:Envelope>"

/-- DIDL-Lite metadata (escaped, as it travels inside `TrackMetaData` text)
with a title and a creator but no album element. -/
def didl_no_album : String := "&lt;DIDL-Lite xmlns:dc=&quot;http://purl.org/dc/elements/1.1/&quot; xmlns:upnp=&quot;urn:schemas-upnp-org:metadata-1-0/upnp/&quot;&gt;&lt;item&gt;&lt;dc:title&gt;Song A&lt;/dc:title&gt;&lt;dc:creator&gt;Artist B&lt;/dc:creator&gt;&lt;/item&gt;&lt;/DIDL-Lite&gt;"

/-- A GetPositionInfo response whose `TrackMetaData` holds `didl_no_album`. -/
def track_response_no_album : String :=
  "<r><Track>1</Track><TrackDuration>0:04:23</TrackDuration><TrackMetaData>" ++ didl_no_album ++ "</TrackMetaData></r>"

/-- A GetPositionInfo response whose `TrackMetaData` element is empty. -/
def track_response_empty_meta : String :=
  "<r><Track>7</Track><TrackDuration>0:01</TrackDuration><TrackMetaData></TrackMetaData></r>"

/-- The parse of `track_response_empty_meta`. -/
def track_response_empty_meta_dom : XElem :=
  XElem.mk "r" none
    [ XElem.mk "Track" (some "7") []
    , XElem.mk "TrackDuration" (some "0:01") []
    , XElem.mk "TrackMetaData" none [] ]

/-- A string is contained in any string built around it. -/
theorem strContains_of_eq (s pre mid post : String) (h : s = pre ++ (mid ++ post)) :
    strContains s mid := by
  subst h
  refine ⟨pre.data, post.data, ?_⟩
  simp [String.data_append, List.append_assoc]

/-- Claim C1: for every mutating operation (play, pause, stop, next,
previous, mute, set_volume, status_light), if the raw response body is
byte-for-byte equal to that operation's literal expected success envelope
string, the operation returns boolean true. -/
theorem mutating_op_success_envelope_returns_true (op : MutOp) (self : SoCo)
    (net : Request → String) (h : net (requestOf op self) = successOf op) :
    runOp op self net = (self, Except.ok (PyVal.pyBool true)) := by
  cases op <;>
    simp_all [runOp, requestOf, successOf, play, pause, stop, next, previous, mute,
      set_volume, status_light]

/-- Claim C1, witness: `play` run against a stub answering exactly the Play
success envelope returns `True`. -/
theorem mutating_op_success_envelope_returns_true_witness :
    runOp MutOp.play ⟨"192.168.1.15"⟩ (fun _ => play_success) =
      (⟨"192.168.1.15"⟩, Except.ok (PyVal.pyBool true)) :=
  mutating_op_success_envelope_returns_true MutOp.play ⟨"192.168.1.15"⟩
    (fun _ => play_success) rfl

set_option maxRecDepth 100000 in
/-- Claim C2 fails on the code: the error path is not uniform.  Against the
same well-formed fault with `errorCode` 801, `mute` and `status_light`
raise `AttributeError` — their error branch reads the nonexistent attribute
`self.parse` instead of the name-mangled `__parse_error` — while `play`
does return the integer 801. -/
theorem mute_error_path_raises_attribute_error :
    runOp (MutOp.mute true) ⟨"ip"⟩ (fun _ => fault801) =
      (⟨"ip"⟩, Except.error (PyExn.attributeError "parse")) ∧
    runOp (MutOp.status_light true) ⟨"ip"⟩ (fun _ => fault801) =
      (⟨"ip"⟩, Except.error (PyExn.attributeError "parse")) ∧
    runOp MutOp.play ⟨"ip"⟩ (fun _ => fault801) =
      (⟨"ip"⟩, Except.ok (PyVal.pyInt 801)) :=
  ⟨by decide, by decide, by decide⟩

set_option maxRecDepth 100000 in
/-- Claim C3 fails on the code: when the response is not XML at all,
`XML.fromstring` raises `ParseError` inside `__parse_error` and the
operation throws instead of returning the raw body; only when the response
parses but lacks an `errorCode` element is the raw body returned verbatim. -/
theorem play_unparseable_response_raises_parse_error :
    runOp MutOp.play ⟨"ip"⟩ (fun _ => "not xml") =
      (⟨"ip"⟩, Except.error PyExn.parseError) ∧
    runOp MutOp.play ⟨"ip"⟩ (fun _ => "<a><b>hi</b></a>") =
      (⟨"ip"⟩, Except.ok (PyVal.pyStr "<a><b>hi</b></a>")) :=
  ⟨by decide, by decide⟩

set_option maxRecDepth 400000 in
/-- Claim C4 fails on the code: with non-empty `TrackMetaData` whose
DIDL-Lite carries a title and a creator but no album element, `findtext`
returns its default `None` for the album, and the code stores that `None`
(here `none`) in the record — not the empty string. -/
theorem track_info_absent_album_is_none :
    get_current_track_info ⟨"ip"⟩ (fun _ => track_response_no_album) =
      (⟨"ip"⟩, Except.ok
        { playlist_position := some "1"
        , duration := some "0:04:23"
        , title := some "Song A"
        , artist := some "Artist B"
        , album := none }) := by decide

/-- Claim C5: whenever the GetPositionInfo response parses and the text of
its `TrackMetaData` element is the empty string, `get_current_track_info`
returns title, artist and album all equal to the empty string without
parsing any metadata, whatever `Track` and `TrackDuration` hold. -/
theorem track_info_empty_metadata_all_fields_empty (self : SoCo)
    (net : Request → String) (dom : XElem)
    (hparse : fromstring (net (get_current_track_infoRequest self)) = Except.ok dom)
    (hmeta : findtext dom ".//TrackMetaData" = some "") :
    get_current_track_info self net =
      (self, Except.ok
        { playlist_position := findtext dom ".//Track"
        , duration := findtext dom ".//TrackDuration"
        , title := some ""
        , artist := some ""
        , album := some "" }) := by
  simp [get_current_track_info, hparse, hmeta]

set_option maxRecDepth 100000 in
/-- Claim C5, witness: a concrete response with `Track` 7, `TrackDuration`
0:01 and an empty `TrackMetaData` element yields empty title, artist and
album. -/
theorem track_info_empty_metadata_all_fields_empty_witness :
    get_current_track_info ⟨"ip"⟩ (fun _ => track_response_empty_meta) =
      (⟨"ip"⟩, Except.ok
        { playlist_position := some "7"
        , duration := some "0:01"
        , title := some ""
        , artist := some ""
        , album := some "" }) :=
  track_info_empty_metadata_all_fields_empty ⟨"ip"⟩ (fun _ => track_response_empty_meta)
    track_response_empty_meta_dom (by rfl) (by rfl)

set_option maxRecDepth 1000000 in
/-- Claim C6: `mute true` sends a body containing
`<DesiredMute>1</DesiredMute>`, `mute false` one containing
`<DesiredMute>0</DesiredMute>`, `status_light true` one containing
`<DesiredLEDState>On</DesiredLEDState>` and `status_light false` one
containing `<DesiredLEDState>Off</DesiredLEDState>`. -/
theorem mute_and_status_light_request_bodies (self : SoCo) :
    strContains (requestOf (MutOp.mute true) self).data "<DesiredMute>1</DesiredMute>" ∧
    strContains (requestOf (MutOp.mute false) self).data "<DesiredMute>0</DesiredMute>" ∧
    strContains (requestOf (MutOp.status_light true) self).data "<DesiredLEDState>On</DesiredLEDState>" ∧
    strContains (requestOf (MutOp.status_light false) self).data "<DesiredLEDState>Off</DesiredLEDState>" :=
  ⟨ strContains_of_eq _ (soapPre ++ "<u:SetMute xmlns:u=\"urn:schemas-upnp-org:service:RenderingControl:1\"><InstanceID>0</InstanceID><Channel>Master</Channel>") _ ("</u:SetMute>" ++ soapPost) (by rfl)
  , strContains_of_eq _ (soapPre ++ "<u:SetMute xmlns:u=\"urn:schemas-upnp-org:service:RenderingControl:1\"><InstanceID>0</InstanceID><Channel>Master</Channel>") _ ("</u:SetMute>" ++ soapPost) (by rfl)
  , strContains_of_eq _ (soapPre ++ "<u:SetLEDState xmlns:u=\"urn:schemas-upnp-org:service:DeviceProperties:1\">") _ soapPost (by rfl)
  , strContains_of_eq _ (soapPre ++ "<u:SetLEDState xmlns:u=\"urn:schemas-upnp-org:service:DeviceProperties:1\">") _ soapPost (by rfl) ⟩

/-- Claim C7: for every volume in [0,100], the `set_volume` request body
contains the literal substring
`<DesiredVolume>` ++ decimal string of volume ++ `</DesiredVolume>`. -/
theorem set_volume_request_contains_desired_volume (self : SoCo) (volume : Int)
    (_h0 : 0 ≤ volume) (_h1 : volume ≤ 100) :
    strContains (requestOf (MutOp.set_volume volume) self).data
      ("<DesiredVolume>" ++ pyRepr volume ++ "</DesiredVolume>") := by
  show ("<DesiredVolume>" ++ pyRepr volume ++ "</DesiredVolume>").data <:+:
    (soapPre ++ set_volume_body volume ++ soapPost).data
  refine ⟨(soapPre ++ "<u:SetVolume xmlns:u=\"urn:schemas-upnp-org:service:RenderingControl:1\"><InstanceID>0</InstanceID><Channel>Master</Channel>").data, ("</u:SetVolume>" ++ soapPost).data, ?_⟩
  simp [set_volume_body, String.data_append, List.append_assoc]

/-- Claim C7, witness: `set_volume 37` sends a body containing
`<DesiredVolume>37</DesiredVolume>`. -/
theorem set_volume_request_contains_desired_volume_witness :
    strContains (requestOf (MutOp.set_volume 37) ⟨"ip"⟩).data
      "<DesiredVolume>37</DesiredVolume>" :=
  set_volume_request_contains_desired_volume ⟨"ip"⟩ 37 (by decide) (by decide)

/-- Claim C8: every request posts to `http://<host>:1400<endpoint>` with
the endpoint one of the three fixed control paths, carries headers
`Content-Type: text/xml` and a `SOAPACTION` equal to the operation's quoted
action URI, and its data is exactly the fixed SOAP envelope with the
operation's body between the `s:Body` tags; likewise for the
`get_current_track_info` request. -/
theorem every_request_has_fixed_shape (op : MutOp) (self : SoCo) :
    (requestOf op self).url = "http://" ++ self.speaker_ip ++ ":1400" ++ endpointOf op ∧
    (endpointOf op = TRANSPORT_ENDPOINT ∨ endpointOf op = RENDERING_ENDPOINT ∨
      endpointOf op = DEVICE_ENDPOINT) ∧
    (requestOf op self).contentType = "text/xml" ∧
    (requestOf op self).soapaction = actionOf op ∧
    (∃ uri, actionOf op = "\"" ++ uri ++ "\"") ∧
    (requestOf op self).data = soapPre ++ bodyOf op ++ soapPost ∧
    (get_current_track_infoRequest self).url =
      "http://" ++ self.speaker_ip ++ ":1400" ++ TRANSPORT_ENDPOINT ∧
    (get_current_track_infoRequest self).contentType = "text/xml" ∧
    (get_current_track_infoRequest self).soapaction = get_current_track_info_action ∧
    (get_current_track_infoRequest self).data =
      soapPre ++ get_current_track_info_body ++ soapPost := by
  cases op
  case play =>
    exact ⟨rfl, Or.inl rfl, rfl, rfl,
      ⟨"urn:schemas-upnp-org:service:AVTransport:1#Play", rfl⟩, rfl, rfl, rfl, rfl, rfl⟩
  case pause =>
    exact ⟨rfl, Or.inl rfl, rfl, rfl,
      ⟨"urn:schemas-upnp-org:service:AVTransport:1#Pause", rfl⟩, rfl, rfl, rfl, rfl, rfl⟩
  case stop =>
    exact ⟨rfl, Or.inl rfl, rfl, rfl,
      ⟨"urn:schemas-upnp-org:service:AVTransport:1#Stop", rfl⟩, rfl, rfl, rfl, rfl, rfl⟩
  case next =>
    exact ⟨rfl, Or.inl rfl, rfl, rfl,
      ⟨"urn:schemas-upnp-org:service:AVTransport:1#Next", rfl⟩, rfl, rfl, rfl, rfl, rfl⟩
  case previous =>
    exact ⟨rfl, Or.inl rfl, rfl, rfl,
      ⟨"urn:schemas-upnp-org:service:AVTransport:1#Previous", rfl⟩, rfl, rfl, rfl, rfl, rfl⟩
  case mute m =>
    exact ⟨rfl, Or.inr (Or.inl rfl), rfl, rfl,
      ⟨"urn:schemas-upnp-org:service:RenderingControl:1#SetMute", rfl⟩, rfl, rfl, rfl, rfl, rfl⟩
  case set_volume v =>
    exact ⟨rfl, Or.inr (Or.inl rfl), rfl, rfl,
      ⟨"urn:schemas-upnp-org:service:RenderingControl:1#SetVolume", rfl⟩, rfl, rfl, rfl, rfl, rfl⟩
  case status_light b =>
    exact ⟨rfl, Or.inr (Or.inr rfl), rfl, rfl,
      ⟨"urn:schemas-upnp-org:service:DeviceProperties:1#SetLEDState", rfl⟩, rfl, rfl, rfl, rfl, rfl⟩

/-- Claim C9: every operation leaves the client state (its single field,
the speaker address fixed at construction) unchanged, and `pause` run twice
against a stub that always answers the success envelope returns `True` both
times. -/
theorem operations_leave_client_unchanged (op : MutOp) (self : SoCo)
    (net : Request → String) :
    (runOp op self net).1 = self ∧
    (get_current_track_info self net).1 = self ∧
    (net (pauseRequest self) = pause_success →
      (pause self net).2 = Except.ok (PyVal.pyBool true) ∧
      (pause (pause self net).1 net).2 = Except.ok (PyVal.pyBool true)) := by
  refine ⟨?_, ?_, ?_⟩
  · cases op <;>
      simp only [runOp, play, pause, stop, next, previous, mute, set_volume, status_light] <;>
      split <;> rfl
  · simp only [get_current_track_info]
    split
    · rfl
    · split
      · split
        · rfl
        · split
          · rfl
          · rfl
      · rfl
  · intro h
    constructor
    · simp [pause, h]
    · simp [pause, h]

/-- Claim C9, witness: at a concrete client and success-envelope stub, the
state is unchanged and both of two successive `pause` calls return `True`. -/
theorem operations_leave_client_unchanged_witness :
    (runOp MutOp.stop ⟨"host"⟩ (fun _ => pause_success)).1 = ⟨"host"⟩ ∧
    (pause ⟨"host"⟩ (fun _ => pause_success)).2 = Except.ok (PyVal.pyBool true) ∧
    (pause (pause ⟨"host"⟩ (fun _ => pause_success)).1 (fun _ => pause_success)).2 =
      Except.ok (PyVal.pyBool true) :=
  ⟨ (operations_leave_client_unchanged MutOp.stop ⟨"host"⟩ (fun _ => pause_success)).1
  , ((operations_leave_client_unchanged MutOp.stop ⟨"host"⟩ (fun _ => pause_success)).2.2 rfl).1
  , ((operations_leave_client_unchanged MutOp.stop ⟨"host"⟩ (fun _ => pause_success)).2.2 rfl).2 ⟩

set_option maxRecDepth 1000000 in
/-- Claim C10: the body built by `status_light` never contains the closing
tag `</u:SetLEDState>`, so the posted request data is not well-formed XML
(our model of `fromstring` rejects it). -/
theorem status_light_body_lacks_closing_tag (led_on : Bool) (self : SoCo) :
    ¬ strContains (status_light_body led_on) "</u:SetLEDState>" ∧
    fromstring (requestOf (MutOp.status_light led_on) self).data =
      Except.error PyExn.parseError := by
  cases led_on
  · exact ⟨by decide, by rfl⟩
  · exact ⟨by decide, by rfl⟩
